import Mathlib

/-!
Shallow embedding of the `neo-miniapps-platform` repository (two Python
source files) and verification of its specification claims.

* `src/deploy/scripts/initialize.py` — contract initialization script:
  the Hash160 byte-reversal helper `reverse_hash160`, the
  `ContractInitializer` orchestration (invoke, phases, main).
* `src/sdk/python/devpack/__init__.py` — the action-builder SDK.

Python strings that undergo character-level processing (hex identifiers)
are modelled as `List Char`; Python `bytes` as `List Nat` with each entry
`< 256`; Python dictionaries as association lists in insertion order;
raised exceptions as `Except`; the external world (subprocess results,
wallet JSON, RPC responses) as oracle fields of an environment record.
-/

namespace NeoMiniapps

/-! ### Hex primitives

Embedding of the Python `bytes.fromhex` / `bytes.hex` operations used by
`reverse_hash160`.  `bytes.fromhex` accepts pairs of hex digits
(`0-9a-fA-F`) and fails otherwise (the whitespace-skipping tolerated by
CPython is irrelevant to identifiers and not modelled); `bytes.hex`
renders lowercase. -/

/-- Value of an ASCII code point as a hex digit (`0-9`, `a-f`, `A-F`). -/
def hexDigitVal? (n : Nat) : Option Nat :=
  if 48 ≤ n ∧ n ≤ 57 then some (n - 48)
  else if 97 ≤ n ∧ n ≤ 102 then some (n - 87)
  else if 65 ≤ n ∧ n ≤ 70 then some (n - 55)
  else Option.none

/-- Value of a character as a hex digit. -/
def hexDigit? (c : Char) : Option Nat :=
  hexDigitVal? c.toNat

/-- `bytes.fromhex`: decode a hex string, two digits per byte; `none` on
odd length or a non-hex character. -/
def bytesFromHex : List Char → Option (List Nat)
  | [] => some []
  | [_] => Option.none
  | c1 :: c2 :: rest =>
    match hexDigit? c1, hexDigit? c2, bytesFromHex rest with
    | some h, some l, some tail => some ((16 * h + l) :: tail)
    | _, _, _ => Option.none

/-- Lowercase hex character for a digit value `< 16` (as produced by
Python's `bytes.hex`). -/
def hexCharOfNat (n : Nat) : Char :=
  Char.ofNat (if n < 10 then 48 + n else 87 + n)

/-- The two lowercase hex characters of one byte. -/
def byteToHexChars (b : Nat) : List Char :=
  [hexCharOfNat (b / 16), hexCharOfNat (b % 16)]

/-- `bytes.hex`: lowercase hex rendering of a byte list. -/
def bytesToHexChars (bs : List Nat) : List Char :=
  (bs.map byteToHexChars).flatten

/-! ### `reverse_hash160` (initialize.py lines 34–50) -/

/-- The two kinds of `ValueError` that `reverse_hash160` can raise:
`fromHexError` models the error raised by `bytes.fromhex` on a malformed
hex string, `sizeMismatch got` the explicit
`ValueError(f"expected 20-byte Hash160, got {got} bytes")`. -/
inductive PyError where
  | fromHexError
  | sizeMismatch (got : Nat)
  deriving DecidableEq, Repr

/-- `value.startswith("0x")`. -/
def startsWith0x : List Char → Bool
  | '0' :: 'x' :: _ => true
  | _ => false

/-- `value[2:] if value.startswith("0x") else value`. -/
def strip0x (value : List Char) : List Char :=
  if startsWith0x value then value.drop 2 else value

/-- Embedding of `reverse_hash160` (initialize.py lines 34–50):
empty input is returned unchanged; otherwise strip an optional `0x`
prefix, decode the hex payload, require exactly 20 bytes, and return
`"0x" + reversed-bytes hex` (lowercase). -/
def reverse_hash160 (value : List Char) : Except PyError (List Char) :=
  if value = [] then .ok []
  else
    match bytesFromHex (strip0x value) with
    | Option.none => .error PyError.fromHexError
    | some raw =>
      if raw.length ≠ 20 then .error (PyError.sizeMismatch raw.length)
      else .ok ('0' :: 'x' :: bytesToHexChars raw.reverse)

/-! ### Devpack SDK data model (src/sdk/python/devpack/__init__.py)

Python values that flow through the action builder, with Python
truthiness; dictionaries are association lists in insertion order with
unique keys (`dictGet` returns the first match, `dictSet` is Python's
`d[k] = v`: update in place, else append). -/

inductive PyVal where
  | none
  | bool (b : Bool)
  | int (n : Int)
  | str (s : String)
  | dict (entries : List (String × PyVal))
  | list (elems : List PyVal)
  deriving Repr

/-- Python truthiness of a value. -/
def PyVal.truthy : PyVal → Bool
  | .none => false
  | .bool b => b
  | .int n => n ≠ 0
  | .str s => s ≠ ""
  | .dict entries => !entries.isEmpty
  | .list elems => !elems.isEmpty

abbrev PyDict := List (String × PyVal)

/-- `d.get(k)`: first binding of `k`, if any. -/
def dictGet : PyDict → String → Option PyVal
  | [], _ => Option.none
  | (k', v) :: rest, k => if k' = k then some v else dictGet rest k

/-- `d[k] = v`: replace the binding of `k` in place, else append. -/
def dictSet : PyDict → String → PyVal → PyDict
  | [], k, v => [(k, v)]
  | (k', v') :: rest, k, v =>
    if k' = k then (k, v) :: rest else (k', v') :: dictSet rest k v

/-! Action-type constants (devpack lines 12–23). -/

def ACTION_GASBANK_ENSURE : String := "gasbank.ensureAccount"
def ACTION_GASBANK_WITHDRAW : String := "gasbank.withdraw"
def ACTION_GASBANK_BALANCE : String := "gasbank.balance"
def ACTION_GASBANK_LIST : String := "gasbank.listTransactions"
def ACTION_ORACLE_CREATE : String := "oracle.createRequest"
def ACTION_PRICEFEED_SNAPSHOT : String := "pricefeed.recordSnapshot"
def ACTION_RANDOM_GENERATE : String := "random.generate"
def ACTION_DATAFEED_SUBMIT : String := "datafeeds.submitUpdate"
def ACTION_DATASTREAM_PUBLISH : String := "datastreams.publishFrame"
def ACTION_DATALINK_CREATE : String := "datalink.createDelivery"
def ACTION_TRIGGERS_REGISTER : String := "triggers.register"
def ACTION_AUTOMATION_SCHEDULE : String := "automation.schedule"

/-- The `Action` dataclass: `type`, `params`, optional `id`. -/
structure Action where
  type : String
  params : PyDict
  id : Option String
  deriving Repr

/-- `Action.as_result(meta=None)` (devpack lines 32–36): a reference
mapping `{"__devpack_ref__": True, "id": self.id or "", "type": self.type}`
with `meta` appended only when the `meta` argument is truthy
(`if meta:`), i.e. a supplied-but-empty mapping is not added.  `meta` is
passed explicitly here (Python's default is `None`). -/
def Action.as_result (a : Action) (meta : Option PyDict) : PyDict :=
  let ref : PyDict :=
    [("__devpack_ref__", PyVal.bool true),
     ("id", PyVal.str (a.id.getD "")),
     ("type", PyVal.str a.type)]
  match meta with
  | some m => if m.isEmpty then ref else ref ++ [("meta", PyVal.dict m)]
  | Option.none => ref

/-- `_action(action_type, params)`: build an `Action` with
`params or {}`.  (`some []` and `none` both yield `{}`, so `getD []` is
exact.) -/
def _action (action_type : String) (params : Option PyDict) : Action :=
  ⟨action_type, params.getD [], Option.none⟩

def ensure_gas_account (params : Option PyDict) : Action :=
  _action ACTION_GASBANK_ENSURE params

def withdraw_gas (params : PyDict) : Action :=
  _action ACTION_GASBANK_WITHDRAW (some params)

def balance_gas_account (params : Option PyDict) : Action :=
  _action ACTION_GASBANK_BALANCE params

def list_gas_transactions (params : PyDict) : Action :=
  _action ACTION_GASBANK_LIST (some params)

def create_oracle_request (params : PyDict) : Action :=
  _action ACTION_ORACLE_CREATE (some params)

def record_price_snapshot (params : PyDict) : Action :=
  _action ACTION_PRICEFEED_SNAPSHOT (some params)

/-- `generate_random(params=None)` (devpack lines 67–71):
`payload = params or {}`; `if not payload.get("length"): payload["length"] = 32`
— an absent or falsy `length` is replaced by `32`. -/
def generate_random (params : Option PyDict) : Action :=
  let payload := params.getD []
  let payload :=
    if (match dictGet payload "length" with
        | some v => v.truthy
        | Option.none => false) then payload
    else dictSet payload "length" (PyVal.int 32)
  _action ACTION_RANDOM_GENERATE (some payload)

def submit_datafeed_update (params : PyDict) : Action :=
  _action ACTION_DATAFEED_SUBMIT (some params)

def publish_datastream_frame (params : PyDict) : Action :=
  _action ACTION_DATASTREAM_PUBLISH (some params)

def create_datalink_delivery (params : PyDict) : Action :=
  _action ACTION_DATALINK_CREATE (some params)

def register_trigger (params : PyDict) : Action :=
  _action ACTION_TRIGGERS_REGISTER (some params)

def schedule_automation (params : PyDict) : Action :=
  _action ACTION_AUTOMATION_SCHEDULE (some params)

/-- `success(data=None, meta=None)`. -/
def success (data : PyVal) (meta : PyVal) : PyDict :=
  [("success", PyVal.bool true), ("data", data), ("meta", meta)]

/-- `failure(error=None, meta=None)`. -/
def failure (error : PyVal) (meta : PyVal) : PyDict :=
  [("success", PyVal.bool false), ("error", error), ("meta", meta)]

/-! ### Initializer model (initialize.py)

Exceptions raised by the script, keyed by Python exception class with the
formatted message. -/

inductive PyExc where
  | valueError (msg : String)
  | runtimeError (msg : String)
  | fileNotFound (msg : String)
  deriving DecidableEq, Repr

/-- Message rendering of `reverse_hash160`'s two `ValueError`s. -/
def PyError.message : PyError → String
  | .fromHexError => "non-hexadecimal number found in fromhex() arg"
  | .sizeMismatch got => "expected 20-byte Hash160, got " ++ toString got ++ " bytes"

/-- `str(e)` for the top-level handler's `print(f"Error during initialization: {e}")`. -/
def PyExc.message : PyExc → String
  | .valueError msg => msg
  | .runtimeError msg => msg
  | .fileNotFound msg => msg

/-- Outcome of `subprocess.run(..., capture_output=True, text=True)`. -/
structure SubprocessResult where
  returncode : Int
  stdout : String
  stderr : String
  deriving DecidableEq, Repr

/-- The `NetworkConfig` dataclass. -/
structure NetworkConfig where
  name : String
  rpc_url : String
  network_magic : Nat
  neo_express_config : Option String
  deriving Repr

/-- First binding of a string key in an association list
(Python `dict.get` — keys are unique, so first match is the binding). -/
def alistGet {α : Type} : List (String × α) → String → Option α
  | [], _ => Option.none
  | (k', v) :: rest, k => if k' = k then some v else alistGet rest k

def NETWORKS : List (String × NetworkConfig) :=
  [("neoexpress",
    ⟨"neoexpress", "http://127.0.0.1:50012", 1234512345,
     some "deploy/config/default.neo-express"⟩),
   ("testnet",
    ⟨"testnet", "https://testnet1.neo.coz.io:443", 877933390, Option.none⟩)]

/-- `GATEWAY_SERVICES` (initialize.py lines 54–59), in insertion order;
the service-type tag is passed as an invocation argument, so it is kept
as a character list. -/
def GATEWAY_SERVICES : List (List Char × String) :=
  [("oracle".toList, "OracleService"),
   ("vrf".toList, "VRFService"),
   ("automation".toList, "NeoFlowService"),
   ("confidential".toList, "ConfidentialService")]

/-- A Neo Express wallet account as consumed by the script:
`account.get("script-hash", "")` and `account.get("public-key", "")`.
An absent key and an empty value are merged (the script only ever tests
these fields for falsiness and passes them on). -/
structure WalletAccount where
  scriptHash : List Char
  publicKey : List Char
  deriving Repr

/-- The external world of the script.  Each field is an oracle for one
kind of side effect (file system, subprocess, HTTP); the script is
deterministic given this record. -/
structure InitEnv where
  /-- `DEPLOYED_FILE.exists()` -/
  deployedFileExists : Bool
  /-- the parsed contents of `deployed_contracts.json` -/
  deployedContents : List (String × List Char)
  /-- result of `shutil.which` / the dotnet-tool fallback in `_resolve_neoxp` -/
  resolvedNeoxp : Option String
  /-- oracle for `_get_wallet_account` (the `neoxp wallet list --json`
  subprocess plus JSON decoding); `.ok Option.none` models its `{}` result,
  `.error` a raised `RuntimeError` -/
  getWalletAccount : String → Except PyExc (Option WalletAccount)
  /-- `os.environ.get("TEE_PUBKEY", "")`, used off Neo Express -/
  teePubkeyEnv : List Char
  /-- oracle for `subprocess.run([neoxp, "contract", "run", ..., hash, method] + args)` -/
  contractRun : List Char → String → List (List Char) → SubprocessResult
  /-- oracle for the decoded JSON-RPC `invokefunction` response -/
  rpcInvoke : List Char → String → List (List Char) → PyVal
  /-- oracle for `subprocess.run([neoxp, "transfer", "100", "GAS", "genesis", "user", ...])` -/
  transferRun : SubprocessResult

/-- One contract invocation as it reaches the transport
(`_invoke_neoexpress` / `_invoke_rpc`): the target contract identifier,
the method, and the stringified arguments. -/
structure Invocation where
  target : List Char
  method : String
  args : List (List Char)
  deriving DecidableEq, Repr

/-- Effectful steps of the script: a result or an uncaught exception,
the lines printed so far, and the invocations that reached the transport. -/
def InitM (α : Type) : Type := Except PyExc α × List String × List Invocation

instance monadInitM : Monad InitM where
  pure a := (.ok a, [], [])
  bind x f :=
    match x with
    | (.error e, l, c) => (.error e, l, c)
    | (.ok a, l, c) =>
      let (r, l2, c2) := f a
      (r, l ++ l2, c ++ c2)

/-- `print(s)`. -/
def pyPrint (s : String) : InitM Unit := (.ok (), [s], [])

/-- Record that a command/request reached the transport. -/
def recordCall (i : Invocation) : InitM Unit := (.ok (), [], [i])

/-- Lift a possibly-raising computation (no output of its own). -/
def liftExc {α : Type} (x : Except PyExc α) : InitM α := (x, [], [])

/-- An uncaught `reverse_hash160` `ValueError` propagates as a `PyExc`. -/
def liftHashError {α : Type} (x : Except PyError α) : InitM α :=
  match x with
  | .ok a => (.ok a, [], [])
  | .error e => (.error (PyExc.valueError e.message), [], [])

/-- The `ContractInitializer` object after `__init__` succeeded. -/
structure ContractInitializer where
  network : NetworkConfig
  deployed : List (String × List Char)
  neoxp : String
  tee_pubkey : List Char

/-- `_load_deployed_contracts` (lines 125–131): `FileNotFoundError` when
the registry file is absent, otherwise the parsed JSON object. -/
def _load_deployed_contracts (env : InitEnv) : Except PyExc (List (String × List Char)) :=
  if env.deployedFileExists then .ok env.deployedContents
  else .error (PyExc.fileNotFound "Deployed contracts file not found")

/-- `_resolve_neoxp` (lines 98–112): the resolved binary path, or a
fatal `FileNotFoundError`.  (`shutil.which` and the dotnet-tool fallback
are folded into the single `resolvedNeoxp` oracle.) -/
def _resolve_neoxp (env : InitEnv) : Except PyExc String :=
  match env.resolvedNeoxp with
  | some p => .ok p
  | Option.none =>
    .error (PyExc.fileNotFound
      "neoxp not found. Install with `dotnet tool install -g Neo.Express`")

/-- `_get_wallet_pubkey` (lines 140–146): `""` when the wallet account is
absent, else its `public-key`. -/
def _get_wallet_pubkey (env : InitEnv) (wallet_name : String) : Except PyExc (List Char) :=
  match env.getWalletAccount wallet_name with
  | .error e => .error e
  | .ok Option.none => .ok []
  | .ok (some account) => .ok account.publicKey

/-- `_get_tee_pubkey` (lines 133–138): wallet lookup on Neo Express,
`TEE_PUBKEY` environment variable otherwise.  (The two built-in configs
make the `if self.network.neo_express_config:` truthiness test a plain
`Option` match.) -/
def _get_tee_pubkey (env : InitEnv) (network : NetworkConfig) : Except PyExc (List Char) :=
  match network.neo_express_config with
  | some _ => _get_wallet_pubkey env "tee"
  | Option.none => .ok env.teePubkeyEnv

/-- `ContractInitializer.__init__` (lines 88–96), in source order:
network lookup (`ValueError` on an unknown name), registry load, binary
resolution, TEE public key.  (`_resolve_dotnet_env` only prepares
environment variables for the subprocess oracles and has no observable
of its own.) -/
def ContractInitializer.make (env : InitEnv) (network : String) :
    Except PyExc ContractInitializer := do
  let net ← match alistGet NETWORKS network with
    | some n => Except.ok n
    | Option.none => Except.error (PyExc.valueError ("Unknown network: " ++ network))
  let deployed ← _load_deployed_contracts env
  let neoxp ← _resolve_neoxp env
  let tee_pubkey ← _get_tee_pubkey env net
  Except.ok ⟨net, deployed, neoxp, tee_pubkey⟩

/-- `d.get(name)` combined with the script's falsiness test
(`if not contract_hash:` / `if contract_hash:`): `some` exactly for a
present, non-empty identifier. -/
def deployedGet (d : List (String × List Char)) (name : String) : Option (List Char) :=
  match alistGet d name with
  | some v => if v = [] then Option.none else some v
  | Option.none => Option.none

/-- `_invoke_neoexpress` (lines 191–206): run the CLI; a nonzero exit
status raises `RuntimeError(f"neoxp invoke failed: {stderr or stdout}")`,
otherwise the captured output dictionary is returned. -/
def _invoke_neoexpress (env : InitEnv) (contract_hash : List Char) (method : String)
    (args : List (List Char)) : InitM PyVal := do
  recordCall ⟨contract_hash, method, args⟩
  let result := env.contractRun contract_hash method args
  if result.returncode ≠ 0 then
    liftExc (.error (PyExc.runtimeError
      ("neoxp invoke failed: " ++ (if result.stderr ≠ "" then result.stderr else result.stdout))))
  else
    pure (PyVal.dict
      [("stdout", PyVal.str result.stdout),
       ("stderr", PyVal.str result.stderr),
       ("returncode", PyVal.int result.returncode)])

/-- `_invoke_rpc` (lines 208–219): POST an `invokefunction` request and
return the decoded response unchanged; never raises in this model. -/
def _invoke_rpc (env : InitEnv) (contract_hash : List Char) (method : String)
    (args : List (List Char)) : InitM PyVal := do
  recordCall ⟨contract_hash, method, args⟩
  pure (env.rpcInvoke contract_hash method args)

/-- The not-found branch of `invoke`: a warning line and the
`{"error": "contract not found"}` result, no exception, no transport call. -/
def invokeNotFound (contract : String) : InitM PyVal :=
  (.ok (PyVal.dict [("error", PyVal.str "contract not found")]),
   ["  Warning: Contract " ++ contract ++ " not found in deployed contracts"],
   [])

/-- `invoke` (lines 179–189): look the contract name up in the loaded
registry; on a missing (or empty) identifier report and skip, otherwise
dispatch on the network profile to one of the two transports. -/
def invoke (env : InitEnv) (self : ContractInitializer) (contract : String)
    (method : String) (args : List (List Char)) : InitM PyVal :=
  match deployedGet self.deployed contract with
  | Option.none => invokeNotFound contract
  | some contract_hash =>
    match self.network.neo_express_config with
    | some _ => _invoke_neoexpress env contract_hash method args
    | Option.none => _invoke_rpc env contract_hash method args

/-- The `for service_type, contract_name in GATEWAY_SERVICES.items()`
loop of `initialize_gateway` (lines 245–249). -/
def registerServicesLoop (env : InitEnv) (self : ContractInitializer) :
    List (List Char × String) → InitM Unit
  | [] => pure ()
  | (service_type, contract_name) :: rest => do
    match deployedGet self.deployed contract_name with
    | some contract_hash => do
      let rev ← liftHashError (reverse_hash160 contract_hash)
      let _ ← invoke env self "ServiceLayerGateway" "registerService" [service_type, rev]
      pyPrint ("    " ++ String.mk service_type ++ " -> " ++ String.mk contract_hash)
      registerServicesLoop env self rest
    | Option.none => registerServicesLoop env self rest

/-- `initialize_gateway` (lines 221–249): TEE-account registration
(skipped with a warning when wallet data is missing), then service
registration.  No handler: exceptions from `reverse_hash160`, the wallet
lookup or `invoke` propagate to the caller. -/
def initialize_gateway (env : InitEnv) (self : ContractInitializer) : InitM Unit := do
  pyPrint "\n=== Initializing ServiceLayerGateway ==="
  match deployedGet self.deployed "ServiceLayerGateway" with
  | Option.none => pyPrint "  Error: ServiceLayerGateway not deployed"
  | some _ => do
    pyPrint "  Registering TEE account..."
    let tee_account ← liftExc (env.getWalletAccount "tee")
    let tee_hash := match tee_account with
      | some account => account.scriptHash
      | Option.none => []
    if tee_hash = [] ∨ self.tee_pubkey = [] then
      pyPrint "  Warning: Missing TEE wallet info (script-hash/public-key); skipping TEE registration"
    else do
      let tee_pubkey_arg :=
        if self.tee_pubkey ≠ [] ∧ ¬ startsWith0x self.tee_pubkey
        then '0' :: 'x' :: self.tee_pubkey else self.tee_pubkey
      let rev ← liftHashError (reverse_hash160 tee_hash)
      let _ ← invoke env self "ServiceLayerGateway" "registerTEEAccount" [rev, tee_pubkey_arg]
    pyPrint "  Registering services..."
    registerServicesLoop env self GATEWAY_SERVICES

/-- The `for service_type, contract_name in GATEWAY_SERVICES.items()`
loop of `initialize_services` (lines 261–265). -/
def setGatewayLoop (env : InitEnv) (self : ContractInitializer) (gateway_arg : List Char) :
    List (List Char × String) → InitM Unit
  | [] => pure ()
  | (_, contract_name) :: rest => do
    match deployedGet self.deployed contract_name with
    | some _ => do
      pyPrint ("  Configuring " ++ contract_name ++ "...")
      let _ ← invoke env self contract_name "setGateway" [gateway_arg]
      setGatewayLoop env self gateway_arg rest
    | Option.none => setGatewayLoop env self gateway_arg rest

/-- `initialize_services` (lines 251–265): reverse the gateway identifier
once, then wire it into every deployed service contract. -/
def initialize_services (env : InitEnv) (self : ContractInitializer) : InitM Unit := do
  pyPrint "\n=== Initializing Service Contracts ==="
  match deployedGet self.deployed "ServiceLayerGateway" with
  | Option.none => pyPrint "  Error: ServiceLayerGateway not deployed"
  | some gateway_hash => do
    let gateway_arg ← liftHashError (reverse_hash160 gateway_hash)
    setGatewayLoop env self gateway_arg GATEWAY_SERVICES

/-- The `for example in examples` loop of `initialize_examples`
(lines 278–286), including the extra `setDataFeedsContract` call for
`DeFiPriceConsumer`. -/
def examplesLoop (env : InitEnv) (self : ContractInitializer)
    (gateway_arg datafeeds_arg : List Char) : List String → InitM Unit
  | [] => pure ()
  | name :: rest => do
    match deployedGet self.deployed name with
    | some _ => do
      pyPrint ("  Configuring " ++ name ++ "...")
      let _ ← invoke env self name "setGateway" [gateway_arg]
      if name = "DeFiPriceConsumer" ∧ datafeeds_arg ≠ [] then do
        let _ ← invoke env self name "setDataFeedsContract" [datafeeds_arg]
        examplesLoop env self gateway_arg datafeeds_arg rest
      else
        examplesLoop env self gateway_arg datafeeds_arg rest
    | Option.none => examplesLoop env self gateway_arg datafeeds_arg rest

/-- `initialize_examples` (lines 267–286): reverse the gateway and
DataFeeds identifiers when present (falling back to `""`), then configure
each deployed example contract. -/
def initialize_examples (env : InitEnv) (self : ContractInitializer) : InitM Unit := do
  pyPrint "\n=== Initializing Example Contracts ==="
  let gateway_arg ← match deployedGet self.deployed "ServiceLayerGateway" with
    | some h => liftHashError (reverse_hash160 h)
    | Option.none => pure []
  let datafeeds_arg ← match deployedGet self.deployed "DataFeedsService" with
    | some h => liftHashError (reverse_hash160 h)
    | Option.none => pure []
  examplesLoop env self gateway_arg datafeeds_arg
    ["ExampleConsumer", "VRFLottery", "DeFiPriceConsumer"]

/-- `fund_accounts` (lines 288–305): Neo Express only; a failed transfer
is only a warning, and the success line is printed unconditionally (as in
the source). -/
def fund_accounts (env : InitEnv) (self : ContractInitializer) : InitM Unit := do
  pyPrint "\n=== Funding Test Accounts ==="
  match self.network.neo_express_config with
  | Option.none => pyPrint "  Skipping (not Neo Express)"
  | some _ => do
    let result := env.transferRun
    if result.returncode ≠ 0 then
      pyPrint ("  Warning: Failed to fund user: "
        ++ (if result.stderr ≠ "" then result.stderr else result.stdout))
    pyPrint "  Funded user account with 100 GAS"

/-- The final address listing of `run` (lines 320–321). -/
def printDeployed : List (String × List Char) → InitM Unit
  | [] => pure ()
  | (name, h) :: rest => do
    pyPrint ("  " ++ name ++ ": " ++ String.mk h)
    printDeployed rest

/-- `ContractInitializer.run` (lines 307–321): the four phases in
sequence, with no handler between them. -/
def ContractInitializer.run (env : InitEnv) (self : ContractInitializer) : InitM Unit := do
  pyPrint ("=== Service Layer Initialization (" ++ self.network.name ++ ") ===")
  pyPrint ("RPC URL: " ++ self.network.rpc_url)
  pyPrint ("Deployed contracts: " ++ toString self.deployed.length)
  initialize_gateway env self
  initialize_services env self
  initialize_examples env self
  fund_accounts env self
  pyPrint "\n=== Initialization Complete ==="
  pyPrint "\nDeployed contract addresses:"
  printDeployed self.deployed

/-- `main` (lines 324–338): build the initializer and run it; any
`FileNotFoundError` or other exception is caught here — and only here —
and mapped to process exit status 1.  Returns the exit status, the
printed lines and the transport calls made. -/
def main (env : InitEnv) (argv1 : Option String) : Nat × List String × List Invocation :=
  let network := argv1.getD "neoexpress"
  match ContractInitializer.make env network with
  | Except.error (PyExc.fileNotFound msg) =>
    (1, ["Error: " ++ msg, "Run deploy_all.sh first to deploy contracts"], [])
  | Except.error e =>
    (1, ["Error during initialization: " ++ e.message], [])
  | Except.ok self =>
    match ContractInitializer.run env self with
    | (Except.error (PyExc.fileNotFound msg), l, c) =>
      (1, l ++ ["Error: " ++ msg, "Run deploy_all.sh first to deploy contracts"], c)
    | (Except.error e, l, c) =>
      (1, l ++ ["Error during initialization: " ++ e.message], c)
    | (Except.ok _, l, c) => (0, l, c)

/-! ### Auxiliary definitions for the verification -/

/-- A character is a lowercase hex digit exactly when it parses as a hex
digit and re-rendering that digit (as `bytes.hex` would) gives the
character back. -/
def isLowerHexChar (c : Char) : Bool :=
  match hexDigit? c with
  | some d => decide (hexCharOfNat d = c)
  | Option.none => false

/-! Concrete fixtures: two syntactically valid deployed-contract
identifiers, their byte-reversals, and environments exercising the
initializer. -/

def gHash : List Char := "0x00112233445566778899aabbccddeeff00112233".toList
def gRev : List Char := "0x33221100ffeeddccbbaa99887766554433221100".toList
def oHash : List Char := "0xffeeddccbbaa99887766554433221100ffeeddcc".toList
def oRev : List Char := "0xccddeeff00112233445566778899aabbccddeeff".toList

/-- A healthy Neo Express world: registry file present with three
deployed contracts, binary resolved, no TEE wallet data, every
subprocess succeeding. -/
def baseEnv : InitEnv where
  deployedFileExists := true
  deployedContents :=
    [("ServiceLayerGateway", gHash), ("OracleService", oHash), ("VRFService", oHash)]
  resolvedNeoxp := some "neoxp"
  getWalletAccount := fun _ => .ok Option.none
  teePubkeyEnv := []
  contractRun := fun _ _ _ => ⟨0, "", ""⟩
  rpcInvoke := fun _ _ _ => PyVal.none
  transferRun := ⟨0, "", ""⟩

/-- `baseEnv` with every `neoxp contract run` returning `res`. -/
def c2Env (res : SubprocessResult) : InitEnv :=
  { baseEnv with contractRun := fun _ _ _ => res }

/-- The initializer object `ContractInitializer.make` builds from
`baseEnv`-shaped environments on the `neoexpress` profile. -/
def c2Self : ContractInitializer :=
  ⟨⟨"neoexpress", "http://127.0.0.1:50012", 1234512345,
    some "deploy/config/default.neo-express"⟩,
   [("ServiceLayerGateway", gHash), ("OracleService", oHash), ("VRFService", oHash)],
   "neoxp", []⟩

/-- Environment holding exactly a gateway and an oracle identifier, with
no TEE wallet data and all subprocesses succeeding. -/
def c3Env (gh oh : List Char) : InitEnv where
  deployedFileExists := true
  deployedContents := [("ServiceLayerGateway", gh), ("OracleService", oh)]
  resolvedNeoxp := some "neoxp"
  getWalletAccount := fun _ => .ok Option.none
  teePubkeyEnv := []
  contractRun := fun _ _ _ => ⟨0, "", ""⟩
  rpcInvoke := fun _ _ _ => PyVal.none
  transferRun := ⟨0, "", ""⟩

/-- The initializer object matching `c3Env` on the `neoexpress` profile. -/
def c3Self (gh oh : List Char) : ContractInitializer :=
  ⟨⟨"neoexpress", "http://127.0.0.1:50012", 1234512345,
    some "deploy/config/default.neo-express"⟩,
   [("ServiceLayerGateway", gh), ("OracleService", oh)], "neoxp", []⟩

/-! ### Helper lemmas -/

theorem initM_bind_ok {α β : Type} (a : α) (l : List String) (c : List Invocation)
    (f : α → InitM β) :
    @Bind.bind InitM (@Monad.toBind InitM monadInitM) α β (Except.ok a, l, c) f
      = ((f a).1, l ++ (f a).2.1, c ++ (f a).2.2) := rfl

theorem initM_bind_err {α β : Type} (e : PyExc) (l : List String) (c : List Invocation)
    (f : α → InitM β) :
    @Bind.bind InitM (@Monad.toBind InitM monadInitM) α β (Except.error e, l, c) f
      = (Except.error e, l, c) := rfl

theorem initM_pure {α : Type} (a : α) :
    @Pure.pure InitM (@Applicative.toPure InitM (@Monad.toApplicative InitM monadInitM)) α a
      = (Except.ok a, [], []) := rfl

theorem hexDigit?_lt {c : Char} {d : Nat} (h : hexDigit? c = some d) : d < 16 := by
  unfold hexDigit? hexDigitVal? at h
  split at h
  · injection h with h; omega
  · split at h
    · injection h with h; omega
    · split at h
      · injection h with h; omega
      · exact Option.noConfusion h

theorem hexDigit?_hexCharOfNat : ∀ d < 16, hexDigit? (hexCharOfNat d) = some d := by decide

theorem hexCharOfNat_of_lower {c : Char} {d : Nat}
    (hd : hexDigit? c = some d) (hl : isLowerHexChar c = true) : hexCharOfNat d = c := by
  unfold isLowerHexChar at hl
  rw [hd] at hl
  exact of_decide_eq_true hl

/-- Every byte decoded by `bytes.fromhex` is below 256. -/
theorem bytesFromHex_bytes_lt :
    ∀ (s : List Char) (raw : List Nat), bytesFromHex s = some raw → ∀ b ∈ raw, b < 256
  | [], raw, h => by
    injection h with h
    subst h
    intro b hb
    cases hb
  | [c], raw, h => Option.noConfusion h
  | c1 :: c2 :: rest, raw, h => by
    simp only [bytesFromHex] at h
    cases hc1 : hexDigit? c1 with
    | none => simp [hc1] at h
    | some hv =>
      cases hc2 : hexDigit? c2 with
      | none => simp [hc1, hc2] at h
      | some lv =>
        cases hr : bytesFromHex rest with
        | none => simp [hc1, hc2, hr] at h
        | some tail =>
          simp only [hc1, hc2, hr] at h
          cases h
          intro b hb
          cases hb with
          | head =>
            have h1 := hexDigit?_lt hc1
            have h2 := hexDigit?_lt hc2
            omega
          | tail _ hb => exact bytesFromHex_bytes_lt rest tail hr b hb

/-- `bytes.fromhex` is a left inverse of `bytes.hex` on byte lists. -/
theorem bytesFromHex_bytesToHexChars :
    ∀ (bs : List Nat), (∀ b ∈ bs, b < 256) → bytesFromHex (bytesToHexChars bs) = some bs
  | [], _ => rfl
  | b :: bs, h => by
    have hb : b < 256 := h b (List.mem_cons_self b bs)
    have h16 : b / 16 < 16 := by omega
    have hm : b % 16 < 16 := by omega
    have ih := bytesFromHex_bytesToHexChars bs (fun x hx => h x (List.mem_cons_of_mem b hx))
    simp only [bytesToHexChars, List.map_cons, List.flatten_cons, byteToHexChars,
      List.cons_append, List.nil_append]
    simp only [bytesFromHex]
    rw [hexDigit?_hexCharOfNat _ h16, hexDigit?_hexCharOfNat _ hm]
    simp only [bytesToHexChars] at ih
    rw [ih]
    show some ((16 * (b / 16) + b % 16) :: bs) = some (b :: bs)
    have hdm : 16 * (b / 16) + b % 16 = b := by omega
    rw [hdm]

/-- `bytes.hex` is a left inverse of `bytes.fromhex` on lowercase hex
strings. -/
theorem bytesToHexChars_of_parse :
    ∀ (s : List Char) (raw : List Nat), bytesFromHex s = some raw →
      (∀ c ∈ s, isLowerHexChar c = true) → bytesToHexChars raw = s
  | [], raw, h, _ => by
    injection h with h
    subst h
    rfl
  | [c], raw, h, _ => Option.noConfusion h
  | c1 :: c2 :: rest, raw, h, hl => by
    simp only [bytesFromHex] at h
    cases hc1 : hexDigit? c1 with
    | none => simp [hc1] at h
    | some hv =>
      cases hc2 : hexDigit? c2 with
      | none => simp [hc1, hc2] at h
      | some lv =>
        cases hr : bytesFromHex rest with
        | none => simp [hc1, hc2, hr] at h
        | some tail =>
          simp only [hc1, hc2, hr] at h
          cases h
          have hhv := hexDigit?_lt hc1
          have hlv := hexDigit?_lt hc2
          have hd : (16 * hv + lv) / 16 = hv := by omega
          have hmod : (16 * hv + lv) % 16 = lv := by omega
          simp only [bytesToHexChars, List.map_cons, List.flatten_cons, byteToHexChars,
            List.cons_append, List.nil_append, hd, hmod]
          rw [hexCharOfNat_of_lower hc1 (hl c1 (by simp)),
              hexCharOfNat_of_lower hc2 (hl c2 (by simp))]
          have ih := bytesToHexChars_of_parse rest tail hr (fun c hc => hl c (by simp [hc]))
          simp only [bytesToHexChars] at ih
          rw [ih]

theorem strip0x_cons (l : List Char) : strip0x ('0' :: 'x' :: l) = l := rfl

/-- Successful outputs of `reverse_hash160` are either empty (for the
empty input) or carry the `0x` prefix. -/
theorem reverse_hash160_ok_shape {value out : List Char}
    (h : reverse_hash160 value = .ok out) :
    (value = [] ∧ out = []) ∨ startsWith0x out = true := by
  unfold reverse_hash160 at h
  split at h
  next hv => injection h with h; subst h; exact Or.inl ⟨hv, rfl⟩
  next hv =>
    cases hp : bytesFromHex (strip0x value) with
    | none => simp only [hp] at h; cases h
    | some raw =>
      simp only [hp] at h
      split at h
      · cases h
      · injection h with h; subst h; right; rfl

/-- `reverse_hash160` on a prefixed rendering of a 20-byte list returns
the prefixed rendering of the reversed list. -/
theorem reverse_hash160_hex20 (bs : List Nat) (hlen : bs.length = 20)
    (hlt : ∀ b ∈ bs, b < 256) :
    reverse_hash160 ('0' :: 'x' :: bytesToHexChars bs)
      = .ok ('0' :: 'x' :: bytesToHexChars bs.reverse) := by
  unfold reverse_hash160
  rw [if_neg (by simp), strip0x_cons, bytesFromHex_bytesToHexChars bs hlt]
  simp [hlen]

theorem dictGet_dictSet (d : PyDict) (k : String) (v : PyVal) :
    dictGet (dictSet d k v) k = some v := by
  induction d with
  | nil => simp [dictSet, dictGet]
  | cons kv rest ih =>
    obtain ⟨k', v'⟩ := kv
    by_cases h : k' = k
    · simp [dictSet, dictGet, h]
    · simp [dictSet, dictGet, h, ih]

/-! ### Claims -/

/-- C1, counterexample: the double-reversal identity fails on valid
20-byte identifiers as soon as the input lacks the `0x` prefix (the
output always carries it) or uses uppercase hex (the output is
lowercase).  Both inputs decode to exactly 20 bytes. -/
theorem reverse_hash160_double_reverse_cex :
    (bytesFromHex (strip0x ("00112233445566778899aabbccddeeff00112233".toList))
      = some [0, 17, 34, 51, 68, 85, 102, 119, 136, 153,
              170, 187, 204, 221, 238, 255, 0, 17, 34, 51])
    ∧ (reverse_hash160 ("00112233445566778899aabbccddeeff00112233".toList)).bind reverse_hash160
        ≠ .ok ("00112233445566778899aabbccddeeff00112233".toList)
    ∧ (reverse_hash160 ("0xAABBCCDDEEFF00112233445566778899AABBCCDD".toList)).bind reverse_hash160
        ≠ .ok ("0xAABBCCDDEEFF00112233445566778899AABBCCDD".toList) := by
  refine ⟨by decide, ?_, ?_⟩
  · intro h
    have hc : (reverse_hash160 ("00112233445566778899aabbccddeeff00112233".toList)).bind
        reverse_hash160
        = .ok ('0' :: 'x' :: "00112233445566778899aabbccddeeff00112233".toList) := by rfl
    have h2 := hc.symm.trans h
    injection h2 with h3
    exact absurd h3 (by decide)
  · intro h
    have hc : (reverse_hash160 ("0xAABBCCDDEEFF00112233445566778899AABBCCDD".toList)).bind
        reverse_hash160
        = .ok ("0xaabbccddeeff00112233445566778899aabbccdd".toList) := by rfl
    have h2 := hc.symm.trans h
    injection h2 with h3
    exact absurd h3 (by decide)

/-- C1 (amended): for every 20-byte hex identifier written with the `0x`
prefix and lowercase hex digits, applying `reverse_hash160` twice
returns the original string. -/
theorem reverse_hash160_double_reverse_id (s : List Char) (raw : List Nat)
    (hparse : bytesFromHex s = some raw) (hlen : raw.length = 20)
    (hlower : ∀ c ∈ s, isLowerHexChar c = true) :
    (reverse_hash160 ('0' :: 'x' :: s)).bind reverse_hash160 = .ok ('0' :: 'x' :: s) := by
  have h1 : reverse_hash160 ('0' :: 'x' :: s)
      = .ok ('0' :: 'x' :: bytesToHexChars raw.reverse) := by
    unfold reverse_hash160
    rw [if_neg (by simp), strip0x_cons, hparse]
    simp [hlen]
  have hlt := bytesFromHex_bytes_lt s raw hparse
  have h2 := reverse_hash160_hex20 raw.reverse (by simp [hlen])
    (fun b hb => hlt b (List.mem_reverse.mp hb))
  rw [h1]
  show reverse_hash160 ('0' :: 'x' :: bytesToHexChars raw.reverse) = _
  rw [h2, List.reverse_reverse, bytesToHexChars_of_parse s raw hparse hlower]

/-- C1 witness: the amended identity at a concrete prefixed lowercase
identifier. -/
theorem reverse_hash160_double_reverse_id_witness :
    (reverse_hash160 ('0' :: 'x' :: "00112233445566778899aabbccddeeff00112233".toList)).bind
        reverse_hash160
      = .ok ('0' :: 'x' :: "00112233445566778899aabbccddeeff00112233".toList) :=
  reverse_hash160_double_reverse_id _
    [0, 17, 34, 51, 68, 85, 102, 119, 136, 153, 170, 187, 204, 221, 238, 255, 0, 17, 34, 51]
    (by decide) (by decide) (by decide)

/-- C2, counterexample: with every prerequisite present and a registry
of three contracts, a nonzero exit status from the very first
`neoxp contract run` aborts the whole run — `main` exits with status 1
and only one invocation ever reached the transport (orchestration did
not proceed to the next item). -/
theorem invoke_error_aborts_run_cex :
    ((c2Env ⟨1, "boom", ""⟩).contractRun gHash "registerService" []).returncode = 1
    ∧ (c2Env ⟨1, "boom", ""⟩).deployedFileExists = true
    ∧ (c2Env ⟨1, "boom", ""⟩).resolvedNeoxp = some "neoxp"
    ∧ (main (c2Env ⟨1, "boom", ""⟩) Option.none).1 = 1
    ∧ (main (c2Env ⟨1, "boom", ""⟩) Option.none).2.2.length = 1 :=
  ⟨rfl, rfl, rfl, rfl, rfl⟩

/-- C2 (amended): a nonzero exit status from the local-tool invocation
is a hard failure for that call — `_invoke_neoexpress` raises a
`RuntimeError` — and, since no phase-level handler exists, it propagates
to the top-level handler: the whole run aborts with exit status 1 after
a single transport call.  Only missing-prerequisite errors, unknown
contract names and the funding transfer are handled non-fatally. -/
theorem nonzero_exit_aborts_run (res : SubprocessResult) (hash : List Char)
    (method : String) (args : List (List Char)) (h : res.returncode ≠ 0) :
    _invoke_neoexpress (c2Env res) hash method args
      = (.error (PyExc.runtimeError ("neoxp invoke failed: "
          ++ (if res.stderr ≠ "" then res.stderr else res.stdout))),
         [], [⟨hash, method, args⟩])
    ∧ (main (c2Env res) Option.none).1 = 1
    ∧ (main (c2Env res) Option.none).2.2.length = 1 := by
  have hrev : reverse_hash160 oHash = Except.ok oRev := by rfl
  have hmake : ContractInitializer.make (c2Env res) "neoexpress" = Except.ok c2Self := rfl
  refine ⟨?_, ?_⟩
  · simp only [_invoke_neoexpress, c2Env, baseEnv, recordCall, liftExc,
      initM_bind_ok, initM_bind_err, initM_pure, h]
    simp [h]
  · simp only [main, Option.getD, hmake]
    simp only [ContractInitializer.run, c2Self, c2Env, baseEnv,
      initialize_gateway, initialize_services, initialize_examples, fund_accounts,
      registerServicesLoop, setGatewayLoop, examplesLoop, printDeployed, invoke,
      _invoke_neoexpress, _invoke_rpc, invokeNotFound, deployedGet, alistGet, pyPrint,
      recordCall, liftExc, liftHashError, GATEWAY_SERVICES,
      initM_bind_ok, initM_bind_err, initM_pure, hrev, h]
    have hgne : (if gHash = [] then (Option.none : Option (List Char)) else some gHash)
        = some gHash := rfl
    have hone : (if oHash = [] then (Option.none : Option (List Char)) else some oHash)
        = some oHash := rfl
    simp [initM_bind_ok, initM_bind_err, initM_pure, hrev, h, hgne, hone]

/-- C2 witness: the amended behaviour at a concrete failing subprocess
result. -/
theorem nonzero_exit_aborts_run_witness :
    _invoke_neoexpress (c2Env ⟨1, "boom", ""⟩) gHash "registerService" []
      = (.error (PyExc.runtimeError ("neoxp invoke failed: "
          ++ (if ("" : String) ≠ "" then "" else "boom"))),
         [], [⟨gHash, "registerService", []⟩])
    ∧ (main (c2Env ⟨1, "boom", ""⟩) Option.none).1 = 1
    ∧ (main (c2Env ⟨1, "boom", ""⟩) Option.none).2.2.length = 1 :=
  nonzero_exit_aborts_run ⟨1, "boom", ""⟩ gHash "registerService" [] (by decide)

/-- C3, counterexample: in the service-registration step the Hash160
argument is reversed once, but the target contract identifier is passed
to the transport exactly as loaded from the registry — zero reversals,
not one (its single reversal `gRev` differs from what was passed). -/
theorem target_hash_not_reversed_cex :
    (initialize_gateway (c3Env gHash oHash) (c3Self gHash oHash)).2.2
      = [⟨gHash, "registerService", ["oracle".toList, oRev]⟩]
    ∧ reverse_hash160 gHash = .ok gRev
    ∧ gRev ≠ gHash :=
  ⟨rfl, rfl, by decide⟩

/-- C3 (amended): for every pair of valid 20-byte identifiers, the
gateway phase feeds the service's Hash160 argument through
`reverse_hash160` exactly once, while the target contract identifier is
passed to the invocation exactly as loaded (no reversal). -/
theorem hash_args_reversed_once_target_as_loaded (g o : List Nat)
    (hg20 : g.length = 20) (ho20 : o.length = 20)
    (hgb : ∀ b ∈ g, b < 256) (hob : ∀ b ∈ o, b < 256) :
    (initialize_gateway
        (c3Env ('0' :: 'x' :: bytesToHexChars g) ('0' :: 'x' :: bytesToHexChars o))
        (c3Self ('0' :: 'x' :: bytesToHexChars g) ('0' :: 'x' :: bytesToHexChars o))).2.2
      = [⟨'0' :: 'x' :: bytesToHexChars g, "registerService",
          ["oracle".toList, '0' :: 'x' :: bytesToHexChars o.reverse]⟩] := by
  have hrev := reverse_hash160_hex20 o ho20 hob
  simp only [initialize_gateway, c3Env, c3Self, registerServicesLoop, invoke,
    _invoke_neoexpress, _invoke_rpc, invokeNotFound, deployedGet, alistGet, pyPrint,
    recordCall, liftExc, liftHashError, GATEWAY_SERVICES,
    initM_bind_ok, initM_bind_err, initM_pure, hrev]
  simp [initM_bind_ok, initM_bind_err, initM_pure, hrev]

/-- C3 witness: the amended statement at two concrete 20-byte
identifiers. -/
theorem hash_args_reversed_once_target_as_loaded_witness :
    (initialize_gateway
        (c3Env ('0' :: 'x' :: bytesToHexChars
            [0, 1, 2, 3, 4, 5, 6, 7, 8, 9, 10, 11, 12, 13, 14, 15, 16, 17, 18, 19])
          ('0' :: 'x' :: bytesToHexChars
            [20, 21, 22, 23, 24, 25, 26, 27, 28, 29, 30, 31, 32, 33, 34, 35, 36, 37, 38, 39]))
        (c3Self ('0' :: 'x' :: bytesToHexChars
            [0, 1, 2, 3, 4, 5, 6, 7, 8, 9, 10, 11, 12, 13, 14, 15, 16, 17, 18, 19])
          ('0' :: 'x' :: bytesToHexChars
            [20, 21, 22, 23, 24, 25, 26, 27, 28, 29, 30, 31, 32, 33, 34, 35, 36, 37, 38, 39]))).2.2
      = [⟨'0' :: 'x' :: bytesToHexChars
            [0, 1, 2, 3, 4, 5, 6, 7, 8, 9, 10, 11, 12, 13, 14, 15, 16, 17, 18, 19],
          "registerService",
          ["oracle".toList,
           '0' :: 'x' :: bytesToHexChars
             ([20, 21, 22, 23, 24, 25, 26, 27, 28, 29,
               30, 31, 32, 33, 34, 35, 36, 37, 38, 39] : List Nat).reverse]⟩] :=
  hash_args_reversed_once_target_as_loaded
    [0, 1, 2, 3, 4, 5, 6, 7, 8, 9, 10, 11, 12, 13, 14, 15, 16, 17, 18, 19]
    [20, 21, 22, 23, 24, 25, 26, 27, 28, 29, 30, 31, 32, 33, 34, 35, 36, 37, 38, 39]
    (by decide) (by decide) (by decide) (by decide)

/-- C4: on every non-empty input whose payload after stripping an
optional `0x` prefix decodes to a byte count other than 20,
`reverse_hash160` raises the size-mismatch `ValueError` to its caller. -/
theorem reverse_hash160_size_mismatch (value : List Char) (raw : List Nat)
    (hne : value ≠ []) (hparse : bytesFromHex (strip0x value) = some raw)
    (hlen : raw.length ≠ 20) :
    reverse_hash160 value = .error (PyError.sizeMismatch raw.length) := by
  unfold reverse_hash160
  rw [if_neg hne, hparse]
  simp [hlen]

/-- C4 witness: a 19-byte payload is rejected with the size-mismatch
error. -/
theorem reverse_hash160_size_mismatch_witness :
    reverse_hash160 ("0x0102030405060708090a0b0c0d0e0f10111213".toList)
      = .error (PyError.sizeMismatch 19) :=
  reverse_hash160_size_mismatch _
    [1, 2, 3, 4, 5, 6, 7, 8, 9, 10, 11, 12, 13, 14, 15, 16, 17, 18, 19]
    (by decide) (by decide) (by decide)

/-- C5: for every contract name absent from the loaded registry (under
either invocation strategy — the environment and initializer are
arbitrary), `invoke` returns the reported `contract not found` result
with a warning line, raises no exception, and makes no transport call. -/
theorem invoke_missing_contract (env : InitEnv) (self : ContractInitializer)
    (contract method : String) (args : List (List Char))
    (h : alistGet self.deployed contract = Option.none) :
    invoke env self contract method args
      = (.ok (PyVal.dict [("error", PyVal.str "contract not found")]),
         ["  Warning: Contract " ++ contract ++ " not found in deployed contracts"],
         []) := by
  have hd : deployedGet self.deployed contract = Option.none := by
    unfold deployedGet
    rw [h]
  unfold invoke
  rw [hd]
  rfl

/-- C5 witness: invoking a name missing from a concrete registry. -/
theorem invoke_missing_contract_witness :
    invoke baseEnv c2Self "DataFeedsService" "setGateway" []
      = (.ok (PyVal.dict [("error", PyVal.str "contract not found")]),
         ["  Warning: Contract " ++ "DataFeedsService" ++ " not found in deployed contracts"],
         []) :=
  invoke_missing_contract baseEnv c2Self "DataFeedsService" "setGateway" [] rfl

/-- C6, counterexample: a caller-supplied `length` of `0` is not
preserved — `generate_random` replaces it with the default `32`. -/
theorem generate_random_zero_length_cex :
    dictGet (generate_random (some [("length", PyVal.int 0)])).params "length"
        = some (PyVal.int 32)
    ∧ dictGet (generate_random (some [("length", PyVal.int 0)])).params "length"
        ≠ some (PyVal.int 0) := by
  refine ⟨rfl, ?_⟩
  intro h
  injection h with h
  cases h

/-- C6 (amended): `generate_random` on a params mapping without a
`length` key yields `length == 32`; a caller-supplied truthy `length`
(such as `8`) is preserved unchanged. -/
theorem generate_random_default_and_truthy (params : PyDict) (v : PyVal) :
    (dictGet params "length" = Option.none →
      dictGet (generate_random (some params)).params "length" = some (PyVal.int 32))
    ∧ (dictGet params "length" = some v → v.truthy = true →
      dictGet (generate_random (some params)).params "length" = some v) := by
  constructor
  · intro h
    simp only [generate_random, _action, Option.getD, h]
    exact dictGet_dictSet params "length" (PyVal.int 32)
  · intro h ht
    simp only [generate_random, _action, Option.getD, h, ht]
    exact h

/-- C6 witness: the empty mapping gets the default 32; a supplied
`length` of 8 is preserved. -/
theorem generate_random_default_and_truthy_witness :
    dictGet (generate_random (some [])).params "length" = some (PyVal.int 32)
    ∧ dictGet (generate_random (some [("length", PyVal.int 8)])).params "length"
        = some (PyVal.int 8) :=
  ⟨(generate_random_default_and_truthy [] PyVal.none).1 rfl,
   (generate_random_default_and_truthy [("length", PyVal.int 8)] (PyVal.int 8)).2 rfl rfl⟩

/-- C7, counterexample: supplying an empty `meta` mapping to
`as_result` does not add a `meta` key (`if meta:` drops every falsy
argument), contradicting "when a meta argument is supplied it is
added". -/
theorem as_result_empty_meta_cex :
    (Action.mk "x" [] Option.none).as_result (some [])
      = [("__devpack_ref__", PyVal.bool true), ("id", PyVal.str ""), ("type", PyVal.str "x")]
    ∧ dictGet ((Action.mk "x" [] Option.none).as_result (some [])) "meta" = Option.none :=
  ⟨rfl, rfl⟩

/-- C7 (amended): `as_result` always contains the true reference marker,
the id (empty string when unset) and the original type; a supplied
non-empty `meta` mapping is added under `"meta"`, while an omitted or
empty one leaves the key absent. -/
theorem as_result_spec (a : Action) (meta : Option PyDict) :
    dictGet (a.as_result meta) "__devpack_ref__" = some (PyVal.bool true)
    ∧ dictGet (a.as_result meta) "id" = some (PyVal.str (a.id.getD ""))
    ∧ dictGet (a.as_result meta) "type" = some (PyVal.str a.type)
    ∧ (meta = Option.none → dictGet (a.as_result meta) "meta" = Option.none)
    ∧ (∀ m, meta = some m → m ≠ [] →
        dictGet (a.as_result meta) "meta" = some (PyVal.dict m))
    ∧ (∀ m, meta = some m → m = [] →
        dictGet (a.as_result meta) "meta" = Option.none) := by
  cases meta with
  | none =>
    refine ⟨rfl, rfl, rfl, fun _ => rfl, ?_, ?_⟩
    · intro m hm; cases hm
    · intro m hm; cases hm
  | some m =>
    cases m with
    | nil =>
      refine ⟨rfl, rfl, rfl, ?_, ?_, ?_⟩
      · intro h; cases h
      · intro m' hm' hne
        injection hm' with hm'
        exact absurd hm'.symm hne
      · intro m' hm' _
        rfl
    | cons kv rest =>
      refine ⟨rfl, rfl, rfl, ?_, ?_, ?_⟩
      · intro h; cases h
      · intro m' hm' _
        injection hm' with hm'
        subst hm'
        rfl
      · intro m' hm' hnil
        injection hm' with hm'
        subst hm'
        cases hnil

/-- C7 witness: a concrete action with an id and a non-empty meta. -/
theorem as_result_spec_witness :
    dictGet ((Action.mk "x" [] (some "r1")).as_result (some [("k", PyVal.int 1)]))
        "__devpack_ref__" = some (PyVal.bool true)
    ∧ dictGet ((Action.mk "x" [] (some "r1")).as_result (some [("k", PyVal.int 1)]))
        "id" = some (PyVal.str "r1")
    ∧ dictGet ((Action.mk "x" [] (some "r1")).as_result (some [("k", PyVal.int 1)]))
        "type" = some (PyVal.str "x")
    ∧ dictGet ((Action.mk "x" [] (some "r1")).as_result (some [("k", PyVal.int 1)]))
        "meta" = some (PyVal.dict [("k", PyVal.int 1)]) :=
  ⟨(as_result_spec (Action.mk "x" [] (some "r1")) (some [("k", PyVal.int 1)])).1,
   (as_result_spec (Action.mk "x" [] (some "r1")) (some [("k", PyVal.int 1)])).2.1,
   (as_result_spec (Action.mk "x" [] (some "r1")) (some [("k", PyVal.int 1)])).2.2.1,
   (as_result_spec (Action.mk "x" [] (some "r1")) (some [("k", PyVal.int 1)])).2.2.2.2.1
     [("k", PyVal.int 1)] rfl (by simp)⟩

/-- C8: `reverse_hash160` maps the empty string to the empty string and
raises no exception. -/
theorem reverse_hash160_empty : reverse_hash160 [] = .ok [] := rfl

/-- C9: every successful `reverse_hash160` output for a non-empty input
starts with `0x` regardless of the input's prefix; consequently an
unprefixed input never round-trips to itself under double reversal. -/
theorem reverse_hash160_output_always_prefixed (value m : List Char) (hne : value ≠ [])
    (hok : reverse_hash160 value = .ok m) :
    startsWith0x m = true
    ∧ (startsWith0x value = false →
        (reverse_hash160 value).bind reverse_hash160 ≠ .ok value) := by
  constructor
  · rcases reverse_hash160_ok_shape hok with ⟨hv, _⟩ | hpre
    · exact absurd hv hne
    · exact hpre
  · intro hunpref hcontra
    rw [hok] at hcontra
    have h2 : reverse_hash160 m = Except.ok value := hcontra
    rcases reverse_hash160_ok_shape h2 with ⟨_, hv⟩ | hpre
    · exact absurd hv hne
    · rw [hpre] at hunpref
      cases hunpref

/-- C9 witness: a concrete unprefixed 20-byte identifier. -/
theorem reverse_hash160_output_always_prefixed_witness :
    startsWith0x ("0x0099887766554433221100998877665544332211".toList) = true
    ∧ (reverse_hash160 ("1122334455667788990011223344556677889900".toList)).bind
        reverse_hash160
      ≠ .ok ("1122334455667788990011223344556677889900".toList) := by
  have h := reverse_hash160_output_always_prefixed
    ("1122334455667788990011223344556677889900".toList)
    ("0x0099887766554433221100998877665544332211".toList)
    (by decide) (by rfl)
  exact ⟨h.1, h.2 rfl⟩

/-- C10: `generate_random` treats every falsy caller-supplied `length`
as absent — it is replaced by the default 32 — and preserves exactly the
truthy values. -/
theorem generate_random_falsy_default (params : PyDict) (v : PyVal)
    (h : dictGet params "length" = some v) :
    (v.truthy = false →
      dictGet (generate_random (some params)).params "length" = some (PyVal.int 32))
    ∧ (v.truthy = true →
      dictGet (generate_random (some params)).params "length" = some v) := by
  constructor
  · intro hf
    simp only [generate_random, _action, Option.getD, h, hf]
    exact dictGet_dictSet params "length" (PyVal.int 32)
  · intro ht
    simp only [generate_random, _action, Option.getD, h, ht]
    exact h

/-- C10 witness: a supplied `length` of 0 is replaced by 32; a supplied
`length` of 5 is preserved. -/
theorem generate_random_falsy_default_witness :
    dictGet (generate_random (some [("length", PyVal.int 0)])).params "length"
        = some (PyVal.int 32)
    ∧ dictGet (generate_random (some [("length", PyVal.int 5)])).params "length"
        = some (PyVal.int 5) :=
  ⟨(generate_random_falsy_default [("length", PyVal.int 0)] (PyVal.int 0) rfl).1 rfl,
   (generate_random_falsy_default [("length", PyVal.int 5)] (PyVal.int 5) rfl).2 rfl⟩

end NeoMiniapps
